import Mathlib

/-!
Verification of the securitybot conversation engine against its
natural-language specification.

The Python sources are shallowly embedded: mutable objects become records,
side effects (chat sends, database writes, 2FA API calls) become explicit
fields of a threaded environment, wall-clock instants become integer minute
counts, and fallible code returns `Option`/`Except` values.
-/

set_option maxRecDepth 10000

namespace Securitybot

/-! ## Generic state machine (securitybot/state_machine.py)

`State`, `Transition` and `StateMachine` mirror the classes of
`state_machine.py`.  Hook callables (`during`, `on_enter`, `on_exit`,
transition `action`) are state transformers `σ → σ` over an abstract
environment `σ`; transition conditions are `σ → Bool × σ` because a Python
condition callable may both read and mutate the object graph (e.g.
`User._already_authed` polls the 2FA backend).  A missing callable is `none`,
mirroring the `None` checks of `State.during`/`on_enter`/`on_exit` and
`Transition.condition`/`action`. -/

structure SMState (σ : Type) where
  name : String
  during : Option (σ → σ)
  on_enter : Option (σ → σ)
  on_exit : Option (σ → σ)

/-- `State.during`: run the during hook if present (state_machine.py:151). -/
def SMState.runDuring {σ : Type} (s : SMState σ) (env : σ) : σ :=
  match s.during with
  | none => env
  | some f => f env

/-- `State.on_enter`: run the entry hook if present (state_machine.py:156). -/
def SMState.runOnEnter {σ : Type} (s : SMState σ) (env : σ) : σ :=
  match s.on_enter with
  | none => env
  | some f => f env

/-- `State.on_exit`: run the exit hook if present (state_machine.py:161). -/
def SMState.runOnExit {σ : Type} (s : SMState σ) (env : σ) : σ :=
  match s.on_exit with
  | none => env
  | some f => f env

structure SMTransition (σ : Type) where
  source : SMState σ
  dest : SMState σ
  condition : Option (σ → Bool × σ)
  action : Option (σ → σ)

/-- `Transition.condition`: a transition lacking a condition counts as
unconditionally true (state_machine.py:200-203). -/
def SMTransition.runCondition {σ : Type} (t : SMTransition σ) (env : σ) : Bool × σ :=
  match t.condition with
  | none => (true, env)
  | some c => c env

/-- `Transition.action`: run the action if present (state_machine.py:205). -/
def SMTransition.runAction {σ : Type} (t : SMTransition σ) (env : σ) : σ :=
  match t.action with
  | none => env
  | some f => f env

/-- The state machine: the transition list (Python groups it in a
`defaultdict` keyed by source name, preserving declaration order within each
source) and the current state.  Construction-time validation of state names
is not needed by any claim and is omitted. -/
structure StateMachine (σ : Type) where
  transitions : List (SMTransition σ)
  state : SMState σ

/-- `self._transitions[name]`: the transitions whose source has the given
name, in declaration order. -/
def StateMachine.transitionsFrom {σ : Type} (m : StateMachine σ) (name : String) :
    List (SMTransition σ) :=
  m.transitions.filter (fun t => t.source.name == name)

/-- The `for transition in ...: if transition.condition(): ... break` loop of
`StateMachine.step` (state_machine.py:108-115).  On the first transition whose
condition evaluates to true it runs the action, then the old state's exit
hook, then swaps the state, then the new state's entry hook, and stops. -/
def StateMachine.stepFrom {σ : Type} (m : StateMachine σ) :
    List (SMTransition σ) → σ → StateMachine σ × σ
  | [], env => (m, env)
  | t :: ts, env =>
    let r := t.runCondition env
    if r.1 then
      let env2 := t.runAction r.2
      let env3 := m.state.runOnExit env2
      let env4 := t.dest.runOnEnter env3
      ({ m with state := t.dest }, env4)
    else
      m.stepFrom ts r.2

/-- `StateMachine.step` (state_machine.py:97-115): run the current state's
during hook, then scan this state's transitions. -/
def StateMachine.step {σ : Type} (m : StateMachine σ) (env : σ) : StateMachine σ × σ :=
  let env1 := m.state.runDuring env
  m.stepFrom (m.transitionsFrom m.state.name) env1

/-- Declaration-order first-match search: evaluate each condition in turn
(threading any condition side effects) and return the first transition whose
condition came out true, together with the environment after the evaluated
conditions. -/
def firstEnabled {σ : Type} : List (SMTransition σ) → σ → Option (SMTransition σ) × σ
  | [], env => (none, env)
  | t :: ts, env =>
    let r := t.runCondition env
    if r.1 then (some t, r.2) else firstEnabled ts r.2

lemma stepFrom_eq_firstEnabled {σ : Type} (m : StateMachine σ)
    (ts : List (SMTransition σ)) (env : σ) :
    m.stepFrom ts env =
      match firstEnabled ts env with
      | (none, envf) => (m, envf)
      | (some t, envf) =>
        ({ m with state := t.dest },
          t.dest.runOnEnter (m.state.runOnExit (t.runAction envf))) := by
  induction ts generalizing env with
  | nil => rfl
  | cons t ts ih =>
    unfold StateMachine.stepFrom firstEnabled
    by_cases hb : (t.runCondition env).1
    · simp [hb]
    · simp [hb, ih]

/-- C1.  One `step()` of the state machine: the current state's during hook
runs first; the transitions whose source is the current state are examined in
declaration order and the first one whose condition returns true (a missing
condition counting as true) is taken; taking it applies the transition's
action, then the old state's exit hook, then swaps the current state, then
applies the new state's entry hook — exactly that composition, so at most one
transition fires per step — and if no condition holds the state is
unchanged. -/
theorem step_first_match {σ : Type} (m : StateMachine σ) (env : σ) :
    StateMachine.step m env =
      match firstEnabled (m.transitionsFrom m.state.name) (m.state.runDuring env) with
      | (none, envf) => (m, envf)
      | (some t, envf) =>
        ({ m with state := t.dest },
          t.dest.runOnEnter (m.state.runOnExit (t.runAction envf))) := by
  unfold StateMachine.step
  exact stepFrom_eq_firstEnabled m _ _

/-! ## Time model (securitybot/util.py)

An aware Python datetime is modelled at minute resolution: `utc` is the
instant in minutes since an epoch that falls on a Monday 00:00 UTC, and `off`
is the UTC offset (in minutes) of the datetime's tzinfo.  Wall-clock fields
(`hour`, `isoweekday`) are read off `utc + off`, matching how Python derives
them from the datetime's own timezone.  `pytz.timezone('America/Los_Angeles')`
is modelled as the fixed offset `LOCAL_OFF`; a timedelta is an integer number
of minutes. -/

structure Datetime where
  utc : Int
  off : Int
  deriving DecidableEq, Repr

/-- Fixed-offset model of `LOCAL_TZ = pytz.timezone('America/Los_Angeles')`. -/
def LOCAL_OFF : Int := -420

def OPENING_HOUR : Int := 10
def CLOSING_HOUR : Int := 18

/-- The wall-clock minute count of a datetime in its own timezone. -/
def Datetime.wall (d : Datetime) : Int := d.utc + d.off

/-- `datetime.hour`: wall-clock hour of the day. -/
def Datetime.hour (d : Datetime) : Int := d.wall % 1440 / 60

/-- `datetime.isoweekday()`: 1 = Monday .. 7 = Sunday, from the datetime's own
wall clock (the epoch is a Monday). -/
def Datetime.isoweekday (d : Datetime) : Int := d.wall % 10080 / 1440 + 1

/-- `datetime.astimezone(tz)`: same instant, different offset. -/
def Datetime.astimezone (d : Datetime) (o : Int) : Datetime := ⟨d.utc, o⟩

/-- Aware datetime plus a timedelta of `m` minutes. -/
def Datetime.addMinutes (d : Datetime) (m : Int) : Datetime := ⟨d.utc + m, d.off⟩

/-- `during_business_hours(time)` (util.py:27-40).  Note the asymmetry of the
source: the hour test is made on `here = time.astimezone(LOCAL_TZ)`, while the
weekday test is `time.isoweekday()`, i.e. on the time in its *own*
timezone. -/
def during_business_hours (time : Datetime) : Bool :=
  let here := time.astimezone LOCAL_OFF
  decide ((OPENING_HOUR ≤ here.hour ∧ here.hour < CLOSING_HOUR) ∧
          (1 ≤ time.isoweekday ∧ time.isoweekday ≤ 5))

/-- The `while not during_business_hours(next_day): next_day += timedelta(days=1)`
loop of `get_expiration_time` (util.py:67-68), run with explicit fuel.
`rollForward_business` shows 7 iterations always suffice at the loop's actual
start point (a local 10:00 datetime), so the fuelled version coincides with
the unbounded loop. -/
def rollForward : Nat → Datetime → Datetime
  | 0, d => d
  | n + 1, d => if during_business_hours d then d else rollForward n (d.addMinutes 1440)

/-- `get_expiration_time(start, time)` (util.py:42-70) for an aware `start`.
`end_of_day` is 18:00 of `start`'s own wall-clock date placed in the local
timezone, `next_day` adds `(OPENING_HOUR - CLOSING_HOUR) % 24` hours, and the
excess `delta = end - end_of_day` is re-added after marching to a weekday. -/
def get_expiration_time (start : Datetime) (time : Int) : Datetime :=
  let endT := start.addMinutes time
  if during_business_hours endT then endT
  else
    let end_of_day : Datetime :=
      ⟨(start.wall / 1440) * 1440 + CLOSING_HOUR * 60 - LOCAL_OFF, LOCAL_OFF⟩
    let delta := endT.utc - end_of_day.utc
    let next_day := end_of_day.addMinutes (((OPENING_HOUR - CLOSING_HOUR) % 24) * 60)
    (rollForward 7 next_day).addMinutes delta

/-- The internal excess `delta = end - end_of_day` of `get_expiration_time`,
named so the theorems can speak about it. -/
def expiration_delta (start : Datetime) (time : Int) : Int :=
  (start.addMinutes time).utc -
    ((start.wall / 1440) * 1440 + CLOSING_HOUR * 60 - LOCAL_OFF)

lemma during_business_hours_mk (u o : Int) :
    during_business_hours ⟨u, o⟩ = true ↔
      ((10 ≤ (u + -420) % 1440 / 60 ∧ (u + -420) % 1440 / 60 < 18) ∧
       (1 ≤ (u + o) % 10080 / 1440 + 1 ∧ (u + o) % 10080 / 1440 + 1 ≤ 5)) := by
  simp [during_business_hours, Datetime.astimezone, Datetime.hour,
    Datetime.isoweekday, Datetime.wall, OPENING_HOUR, CLOSING_HOUR, LOCAL_OFF]

lemma rollForward_reaches (n : Nat) (d : Datetime)
    (h : ∃ k : Nat, k < n ∧ during_business_hours (d.addMinutes (1440 * k)) = true) :
    during_business_hours (rollForward n d) = true := by
  induction n generalizing d with
  | zero =>
    obtain ⟨k, hk, _⟩ := h
    omega
  | succ n ih =>
    obtain ⟨k, hk, hb⟩ := h
    unfold rollForward
    by_cases hd : during_business_hours d = true
    · simp [hd]
    · simp only [hd, Bool.false_eq_true, if_false]
      apply ih
      match k, hk, hb with
      | 0, _, hb =>
        exfalso
        apply hd
        have h0 : d.addMinutes (1440 * ((0 : Nat) : Int)) = d := by
          cases d
          simp [Datetime.addMinutes]
        rwa [h0] at hb
      | k + 1, hk, hb =>
        refine ⟨k, by omega, ?_⟩
        have h1 : (d.addMinutes 1440).addMinutes (1440 * (k : Int)) =
            d.addMinutes (1440 * ((k + 1 : Nat) : Int)) := by
          cases d
          simp [Datetime.addMinutes]
          ring
        rw [h1]
        exact hb

/-- Helper existence fact used to discharge `rollForward_reaches`: starting
from a local 10:00 wall clock, at most 6 day-advances reach a weekday, so 7
loop iterations suffice. -/
lemma exists_business_day (d : Datetime) (hoff : d.off = LOCAL_OFF)
    (hw : (d.utc + d.off) % 1440 = 600) :
    ∃ k : Nat, k < 7 ∧ during_business_hours (d.addMinutes (1440 * k)) = true := by
  obtain ⟨u, o⟩ := d
  simp only [LOCAL_OFF] at hoff
  subst hoff
  simp only at hw
  simp only [Datetime.addMinutes]
  by_cases h4 : (u + -420) % 10080 / 1440 ≤ 4
  · refine ⟨0, by omega, ?_⟩
    rw [during_business_hours_mk]
    constructor
    · constructor <;> omega
    · constructor <;> omega
  · refine ⟨(7 - (u + -420) % 10080 / 1440).toNat, by omega, ?_⟩
    rw [during_business_hours_mk]
    have htn : ((((7 : Int) - (u + -420) % 10080 / 1440).toNat : Int)) =
        7 - (u + -420) % 10080 / 1440 := by
      omega
    rw [htn]
    constructor
    · constructor <;> omega
    · constructor <;> omega

lemma rollForward_shape (n : Nat) (d : Datetime) :
    ∃ j : Nat, rollForward n d = d.addMinutes (1440 * j) := by
  induction n generalizing d with
  | zero =>
    refine ⟨0, ?_⟩
    cases d
    simp [rollForward, Datetime.addMinutes]
  | succ n ih =>
    unfold rollForward
    by_cases hd : during_business_hours d = true
    · refine ⟨0, ?_⟩
      cases d
      simp [hd, Datetime.addMinutes]
    · simp only [hd, Bool.false_eq_true, if_false]
      obtain ⟨j, hj⟩ := ih (d.addMinutes 1440)
      refine ⟨j + 1, ?_⟩
      rw [hj]
      cases d
      simp [Datetime.addMinutes]
      ring

/-- C3 (amended).  `get_expiration_time` returns `start + ttl` when that
instant is within business hours; otherwise it rolls forward to the next
weekday 10:00 local and re-adds the excess `delta` past the 18:00 close of
`start`'s day — and the result satisfies `during_business_hours` whenever
that excess is nonnegative and under 8 hours.  (It does *not* satisfy it for
all inputs: see `get_expiration_time_escapes_business_hours`.) -/
theorem get_expiration_time_spec (start : Datetime) (time : Int) :
    (during_business_hours (start.addMinutes time) = true →
      get_expiration_time start time = start.addMinutes time)
    ∧ (during_business_hours (start.addMinutes time) = false →
       0 ≤ expiration_delta start time → expiration_delta start time < 480 →
       during_business_hours (get_expiration_time start time) = true) := by
  obtain ⟨u, o⟩ := start
  constructor
  · intro h
    simp [get_expiration_time, h]
  · intro h h0 h480
    unfold get_expiration_time
    simp only [h, Bool.false_eq_true, if_false]
    simp only [Datetime.wall, Datetime.addMinutes, OPENING_HOUR, CLOSING_HOUR, LOCAL_OFF]
    unfold expiration_delta at h0 h480
    simp only [Datetime.wall, Datetime.addMinutes, CLOSING_HOUR, LOCAL_OFF] at h0 h480
    have he : ((10 : Int) - 18) % 24 * 60 = 960 := by decide
    rw [he]
    set E : Int := (u + o) / 1440 * 1440 + 18 * 60 - -420 + 960 with hE
    have hoff : (Datetime.mk E (-420)).off = LOCAL_OFF := by simp [LOCAL_OFF]
    have hw : ((Datetime.mk E (-420)).utc + (Datetime.mk E (-420)).off) % 1440 = 600 := by
      simp only [hE]
      omega
    have hbiz : during_business_hours (rollForward 7 ⟨E, -420⟩) = true :=
      rollForward_reaches 7 _ (exists_business_day _ hoff hw)
    obtain ⟨j, hj⟩ := rollForward_shape 7 (Datetime.mk E (-420))
    rw [hj] at hbiz ⊢
    simp only [Datetime.addMinutes] at hbiz ⊢
    rw [during_business_hours_mk] at hbiz ⊢
    simp only [hE] at *
    constructor
    · constructor <;> omega
    · constructor <;> omega

/-- C3 counterexample.  `start = ⟨960, 0⟩` (a Monday 09:00 local, 16:00 UTC)
with a 17-hour ttl: the excess past the Monday 18:00 close is 8 hours, so the
rolled-forward expiry lands exactly on 18:00 local of the next weekday, which
`during_business_hours` rejects — refuting "in all cases the returned
timestamp satisfies during_business_hours". -/
theorem get_expiration_time_escapes_business_hours :
    during_business_hours (get_expiration_time ⟨960, 0⟩ 1020) = false ∧
    during_business_hours ((⟨960, 0⟩ : Datetime).addMinutes 1020) = false := by
  constructor <;> rfl

/-- Witness for C3: both parts applied at concrete inputs.  `⟨1020, 0⟩` is a
Monday 10:00 local, already within business hours; `⟨960, 0⟩` with a 16-hour
ttl has excess 7 hours past the close, landing Tuesday 17:00 local. -/
theorem get_expiration_time_spec_witness :
    get_expiration_time ⟨1020, 0⟩ 0 = (⟨1020, 0⟩ : Datetime).addMinutes 0 ∧
    during_business_hours (get_expiration_time ⟨960, 0⟩ 960) = true := by
  exact ⟨(get_expiration_time_spec ⟨1020, 0⟩ 0).1 (by decide),
         (get_expiration_time_spec ⟨960, 0⟩ 960).2 (by decide) (by decide) (by decide)⟩

/-! ## 2FA auth adapter (securitybot/auth/auth.py, securitybot/auth/duo.py)

`AUTH_STATES` mirrors `enum('NONE', 'PENDING', 'AUTHORIZED', 'DENIED')`.
`DuoAuth` keeps the transaction id, the stamp `auth_time` (minutes; Python's
`datetime.min` becomes the sentinel `datetimeMin`) and the current state.
The Duo API poll `client.auth_status(txid)` is an external input, modelled as
a `PollResult` handed to `auth_status`; the present minute is likewise passed
explicitly. -/

inductive AUTH_STATES where
  | NONE
  | PENDING
  | AUTHORIZED
  | DENIED
  deriving DecidableEq, Repr

/-- `AUTH_TIME = timedelta(hours=2)` (auth.py:19), in minutes. -/
def AUTH_TIME : Int := 120

/-- Model of Python's `datetime.min` used to clear `auth_time`. -/
def datetimeMin : Int := -(10 ^ 9)

structure PollResult where
  waiting : Bool
  success : Bool
  deriving DecidableEq, Repr

structure DuoAuth where
  txid : Option String
  auth_time : Int
  state : AUTH_STATES
  deriving DecidableEq, Repr

/-- `DuoAuth.__init__` (duo.py:25-27). -/
def DuoAuth.init : DuoAuth := ⟨none, datetimeMin, .NONE⟩

/-- `DuoAuth._recently_authed` (duo.py:61-63). -/
def DuoAuth.recently_authed (d : DuoAuth) (now : Int) : Prop :=
  now - d.auth_time < AUTH_TIME

instance (d : DuoAuth) (now : Int) : Decidable (d.recently_authed now) := by
  unfold DuoAuth.recently_authed
  infer_instance

/-- `DuoAuth.auth` (duo.py:42-59): issue the push (txid comes back from the
Duo client; modelled as an input) and go PENDING. -/
def DuoAuth.beginAuth (d : DuoAuth) (txid : String) : DuoAuth :=
  { d with txid := some txid, state := .PENDING }

/-- `DuoAuth.reset` (duo.py:81-84). -/
def DuoAuth.reset (d : DuoAuth) : DuoAuth :=
  { d with txid := none, state := .NONE }

/-- `DuoAuth.auth_status` (duo.py:65-79): poll while PENDING (a finished
successful poll stamps `auth_time = now`, a denial clears it); an AUTHORIZED
state not recently stamped decays to NONE; return the resulting state. -/
def DuoAuth.auth_status (d : DuoAuth) (now : Int) (poll : PollResult) :
    AUTH_STATES × DuoAuth :=
  let d' :=
    if d.state = .PENDING then
      if ¬poll.waiting then
        if poll.success then { d with state := .AUTHORIZED, auth_time := now }
        else { d with state := .DENIED, auth_time := datetimeMin }
      else d
    else if d.state = .AUTHORIZED then
      if ¬d.recently_authed now then { d with state := .NONE }
      else d
    else d
  (d'.state, d')

/-- C5.  A `status()` poll that observes a successful resolution stamps
`auth_time` with the poll instant and reports AUTHORIZED; any poll reports
AUTHORIZED only while `now - auth_time < AUTH_TIME` (2 hours) holds of the
stamped time; and an AUTHORIZED state whose window has elapsed decays to
NONE. -/
theorem auth_status_spec (d : DuoAuth) (now : Int) (poll : PollResult) :
    (d.state = .PENDING → poll.waiting = false → poll.success = true →
      (d.auth_status now poll).1 = .AUTHORIZED ∧
      (d.auth_status now poll).2.auth_time = now)
    ∧ ((d.auth_status now poll).1 = .AUTHORIZED →
        now - (d.auth_status now poll).2.auth_time < AUTH_TIME)
    ∧ (d.state = .AUTHORIZED → AUTH_TIME ≤ now - d.auth_time →
        (d.auth_status now poll).1 = .NONE ∧
        (d.auth_status now poll).2.state = .NONE) := by
  obtain ⟨txid, at_, st⟩ := d
  obtain ⟨w, s⟩ := poll
  refine ⟨?_, ?_, ?_⟩
  · intro hst hw hs
    subst hst hw hs
    simp [DuoAuth.auth_status]
  · intro h
    cases st with
    | NONE => simp [DuoAuth.auth_status] at h
    | DENIED => simp [DuoAuth.auth_status] at h
    | PENDING =>
      cases w with
      | true => simp [DuoAuth.auth_status] at h
      | false =>
        cases s with
        | true =>
          simp [DuoAuth.auth_status, AUTH_TIME]
        | false => simp [DuoAuth.auth_status] at h
    | AUTHORIZED =>
      by_cases hr : now - at_ < AUTH_TIME
      · have hrp : DuoAuth.recently_authed ⟨txid, at_, .AUTHORIZED⟩ now := hr
        simp [DuoAuth.auth_status, hrp]
        exact hr
      · have hrp : ¬DuoAuth.recently_authed ⟨txid, at_, .AUTHORIZED⟩ now := hr
        simp [DuoAuth.auth_status, hrp] at h
  · intro hst h
    subst hst
    have hb : (120 : Int) ≤ now - at_ := h
    have hr : ¬(now - at_ < AUTH_TIME) := by
      simp only [AUTH_TIME]
      omega
    simp [DuoAuth.auth_status, DuoAuth.recently_authed, hr]

/-- Witness for C5: a PENDING auth polled with a finished successful result
at minute 1000 stamps `auth_time = 1000` and reports AUTHORIZED; an
AUTHORIZED auth stamped at 0 and polled at minute 120 has aged out and
reports NONE. -/
theorem auth_status_spec_witness :
    ((DuoAuth.mk (some "t") 0 .PENDING).auth_status 1000 ⟨false, true⟩).1 = .AUTHORIZED ∧
    ((DuoAuth.mk (some "t") 0 .PENDING).auth_status 1000 ⟨false, true⟩).2.auth_time = 1000 ∧
    ((DuoAuth.mk none 0 .AUTHORIZED).auth_status 120 ⟨true, false⟩).1 = .NONE := by
  refine ⟨?_, ?_, ?_⟩
  · exact ((auth_status_spec (DuoAuth.mk (some "t") 0 .PENDING) 1000 ⟨false, true⟩).1
      rfl rfl rfl).1
  · exact ((auth_status_spec (DuoAuth.mk (some "t") 0 .PENDING) 1000 ⟨false, true⟩).1
      rfl rfl rfl).2
  · exact ((auth_status_spec (DuoAuth.mk none 0 .AUTHORIZED) 120 ⟨true, false⟩).2.2
      rfl (by decide)).1

/-! ## Datastore engine (securitybot/sql.py)

`SQLEngine.execute` attempts `cursor.execute/fetchall/commit`; an
`AttributeError` or `MySQLdb.OperationalError` (lost connection) triggers a
reconnect with the saved credentials and a *recursive* call
`return SQLEngine.execute(query, params)`; any other `MySQLdb.Error` is
re-raised as `SQLEngineException`.  The database's behaviour is an external
oracle: a list of per-attempt outcomes, consumed one per attempt.  An
exhausted oracle (`none` result) models the divergence of endless transport
errors. -/

inductive DBOutcome where
  | rows (r : List (List String))
  | lost_connection
  | db_error (msg : String)
  deriving DecidableEq, Repr

abbrev SQLEngineException := String

/-- `SQLEngine.execute` (sql.py:54-85) against an oracle of per-attempt
outcomes. -/
def SQLEngine.execute : List DBOutcome → Option (Except SQLEngineException (List (List String)))
  | [] => none
  | .rows r :: _ => some (.ok r)
  | .lost_connection :: rest => SQLEngine.execute rest
  | .db_error msg :: _ => some (.error ("MySQL error: " ++ msg))

/-- How many times `execute` runs the query against the given oracle. -/
def SQLEngine.attempts : List DBOutcome → Nat
  | [] => 0
  | .rows _ :: _ => 1
  | .lost_connection :: rest => 1 + SQLEngine.attempts rest
  | .db_error _ :: _ => 1

/-- C2 counterexample.  With two consecutive transport failures followed by a
success, `execute` runs the query a *third* time (and returns that success):
the recursive recovery path retries as often as the transport keeps failing,
not exactly once. -/
theorem execute_retries_more_than_once :
    SQLEngine.attempts [.lost_connection, .lost_connection, .rows []] = 3 ∧
    SQLEngine.execute [.lost_connection, .lost_connection, .rows []] =
      some (.ok []) ∧ ¬(3 ≤ 2) := by
  refine ⟨rfl, rfl, by omega⟩

/-- C2 (amended).  On a transport error `execute` rebuilds the connection and
retries the same query with the same parameters *recursively*, without bound:
after any number of transport failures a successful attempt returns its rows,
any other database error surfaces as a typed `SQLEngineException`, and if the
transport keeps failing the recursion never returns. -/
theorem execute_recovery_spec (n : Nat) (r : List (List String)) (msg : String) :
    SQLEngine.execute (List.replicate n .lost_connection ++ [.rows r]) = some (.ok r)
    ∧ SQLEngine.execute (List.replicate n .lost_connection ++ [.db_error msg]) =
        some (.error ("MySQL error: " ++ msg))
    ∧ SQLEngine.execute (List.replicate n .lost_connection) = none
    ∧ SQLEngine.attempts (List.replicate n .lost_connection ++ [.rows r]) = n + 1 := by
  induction n with
  | zero => exact ⟨rfl, rfl, rfl, rfl⟩
  | succ n ih =>
    obtain ⟨h1, h2, h3, h4⟩ := ih
    refine ⟨?_, ?_, ?_, ?_⟩
    · simpa [List.replicate_succ, SQLEngine.execute] using h1
    · simpa [List.replicate_succ, SQLEngine.execute] using h2
    · simpa [List.replicate_succ, SQLEngine.execute] using h3
    · have hc : SQLEngine.attempts (DBOutcome.lost_connection ::
          (List.replicate n DBOutcome.lost_connection ++ [DBOutcome.rows r])) =
          1 + SQLEngine.attempts
            (List.replicate n DBOutcome.lost_connection ++ [DBOutcome.rows r]) := rfl
      rw [List.replicate_succ, List.cons_append, hc, h4]
      omega

/-! ## Tasks (securitybot/tasker/tasker.py, sql_tasker.py)

`STATUS_LEVELS = enum('OPEN', 'INPROGRESS', 'VERIFICATION')`.  A `Task`
record carries the constructor fields of `Task`/`SQLTask`.  In Python the
status lives in the `alert_status` database row (`_set_status` writes the
database and the in-memory attribute is never re-read), so the record's
`status` field models the persisted row; `set_verifying` also commits the
response fields, which the record already carries. -/

inductive STATUS_LEVELS where
  | OPEN
  | INPROGRESS
  | VERIFICATION
  deriving DecidableEq, Repr

structure Task where
  title : String
  username : String
  reason : String
  description : String
  url : String
  performed : Bool
  comment : String
  authenticated : Bool
  status : STATUS_LEVELS
  deriving DecidableEq, Repr

def Task.set_open (t : Task) : Task := { t with status := .OPEN }

def Task.set_in_progress (t : Task) : Task := { t with status := .INPROGRESS }

def Task.set_verifying (t : Task) : Task := { t with status := .VERIFICATION }

/-- `tuple_builder(answer, text)` (util.py:17-21): the tri-state last
message.  The unset value is `tuple_builder none none = ⟨none, ""⟩`. -/
structure Response where
  answer : Option Bool
  text : String
  deriving DecidableEq, Repr

def tuple_builder (answer : Option Bool) (text : Option String) : Response :=
  ⟨answer, text.getD ""⟩

/-! ## User session (securitybot/user.py)

The per-user conversation FSM.  All object state the session touches —
its own fields, its `DuoAuth`, and the observable side effects on the chat,
the suppression store and the parent bot — is gathered in `UserCtx`, which is
the environment type `σ` of the generic machine.  External inputs read
during a step (the wall clock `now`, the Duo poll outcome, the `can_auth`
probe, the user's suppression snapshot `ignored`) are fields the surrounding
world sets between steps.

Where a hook dereferences `pending_task` Python would raise
`AttributeError`/`IndexError` if it were `None`/empty; the machine only runs
those hooks in states where the field is set, and the model makes them
no-ops on the unset value. -/

/-- `ESCALATION_TIME = timedelta(hours=2)` (user.py:19), minutes. -/
def ESCALATION_TIME : Int := 120

/-- `BACKOFF_TIME = timedelta(hours=21)` (user.py:20), minutes. -/
def BACKOFF_TIME : Int := 1260

/-- Model of `datetime.max` (used as the cleared escalation deadline). -/
def datetimeMax : Int := 10 ^ 9

structure UserCtx where
  /-- `self.tasks` -/
  tasks : List Task
  /-- `self.pending_task` -/
  pending_task : Option Task
  /-- `self._last_message` -/
  last_message : Response
  /-- `self._last_auth` -/
  last_auth : AUTH_STATES
  /-- `self._escalation_time`, as a UTC minute instant -/
  escalation_time : Int
  /-- `self.auth`, the per-user `DuoAuth` -/
  duo : DuoAuth
  /-- `self['name']` -/
  username : String
  /-- external input: the current UTC minute (`datetime.now`) -/
  now : Int
  /-- external input: the next Duo poll outcome -/
  poll : PollResult
  /-- external input: the Duo `can_auth()` capability probe -/
  can_auth : Bool
  /-- external input: `ignored_alerts.get_ignored(username)` as title ↦ reason -/
  ignored : List (String × String)
  /-- whether `parent.reporting_channel is not None` -/
  reporting : Bool
  /-- effect log: message keys sent to this user (`send_message`) -/
  sent : List String
  /-- effect log: alerts rendered by `parent.alert_user` (task descriptions) -/
  alerts : List String
  /-- effect log: reports posted to the reporting channel (task titles) -/
  reports : List String
  /-- effect log: `ignored_alerts.ignore_task` upserts -/
  ignoreInserts : List (String × String × String × Int)
  /-- effect log: queued tasks short-circuited by the suppression sweep -/
  swept : List Task
  /-- effect log: tasks completed via `set_verifying` in `_complete_task` -/
  completed : List Task
  /-- whether `parent.cleanup_user(self)` was called -/
  cleaned : Bool

namespace User

/-- `User.send_message(key)` (user.py:369-377): effect log only. -/
def send_message (key : String) (c : UserCtx) : UserCtx :=
  { c with sent := c.sent ++ [key] }

/-- `User._has_tasks` (user.py:170-173). -/
def has_tasks (c : UserCtx) : Bool × UserCtx :=
  (decide (c.tasks.length ≠ 0), c)

/-- `User._performed_action` (user.py:187-190). -/
def performed_action (c : UserCtx) : Bool × UserCtx :=
  (decide (c.last_message.answer = some true), c)

/-- `User._already_authed` (user.py:175-181): `and` short-circuits, and
`auth_status()` may mutate the Duo object. -/
def already_authed (c : UserCtx) : Bool × UserCtx :=
  if c.last_message.answer = some true then
    let r := c.duo.auth_status c.now c.poll
    (decide (r.1 = .AUTHORIZED), { c with duo := r.2 })
  else (false, c)

/-- `User._cannot_2fa` (user.py:183-185). -/
def cannot_2fa (c : UserCtx) : Bool × UserCtx :=
  (decide (c.last_message.answer = some true) && !c.can_auth, c)

/-- `User._did_not_perform_action` (user.py:192-195). -/
def did_not_perform_action (c : UserCtx) : Bool × UserCtx :=
  (decide (c.last_message.answer = some false), c)

/-- `User._slow_response_time` (user.py:197-200): `now > escalation_time`. -/
def slow_response_time (c : UserCtx) : Bool × UserCtx :=
  (decide (c.escalation_time < c.now), c)

/-- `User._allows_authorization` (user.py:202-205). -/
def allows_authorization (c : UserCtx) : Bool × UserCtx :=
  (decide (c.last_message.answer = some true), c)

/-- `User._denies_authorization` (user.py:207-210). -/
def denies_authorization (c : UserCtx) : Bool × UserCtx :=
  (decide (c.last_message.answer = some false), c)

/-- `User._auth_completed` (user.py:212-215). -/
def auth_completed (c : UserCtx) : Bool × UserCtx :=
  (decide (c.last_auth = .AUTHORIZED ∨ c.last_auth = .DENIED), c)

/-- `User._update_auth` (user.py:164-166). -/
def update_auth (c : UserCtx) : UserCtx :=
  let r := c.duo.auth_status c.now c.poll
  { c with last_auth := r.1, duo := r.2 }

/-- `User._reset_message` (user.py:281-283). -/
def reset_message (c : UserCtx) : UserCtx :=
  { c with last_message := tuple_builder none none }

/-- `User.begin_auth` (user.py:381-388): send `sending_push`, then
`auth.auth(pending_task.description)` (the Duo txid is opaque). -/
def begin_auth (c : UserCtx) : UserCtx :=
  let c1 := send_message "sending_push" c
  { c1 with duo := c1.duo.beginAuth "txid" }

/-- `User._next_task` (user.py:298-308): pop the queue head into
`pending_task`, have the parent render the alert, reset the last message and
arm the escalation deadline. -/
def next_task (c : UserCtx) : UserCtx :=
  match c.tasks with
  | [] => c
  | t :: rest =>
    let c1 := { c with pending_task := some t, tasks := rest }
    let c2 := { c1 with alerts := c1.alerts ++ [t.description] }
    let c3 := reset_message c2
    { c3 with escalation_time := (get_expiration_time ⟨c3.now, 0⟩ ESCALATION_TIME).utc }

/-- `User._auto_escalate` (user.py:219-228). -/
def auto_escalate (c : UserCtx) : UserCtx :=
  match c.pending_task with
  | none => c
  | some t =>
    let t1 := Task.set_verifying
      { t with comment := t.comment ++ "Automatically escalated. No response received." }
    let c1 := { c with pending_task := some t1, escalation_time := datetimeMax }
    send_message "no_response" c1

/-- `User._act_on_not_performed` (user.py:230-252): send `escalated`, and
post the report (logged by task title) when a reporting channel exists. -/
def act_on_not_performed (c : UserCtx) : UserCtx :=
  let c1 := send_message "escalated" c
  if c1.reporting then
    { c1 with reports := c1.reports ++ [(c1.pending_task.map Task.title).getD ""] }
  else c1

/-- `User._update_task_response` (user.py:257-266): commit the answer to the
pending task iff the answer is non-null, then reset the last message. -/
def update_task_response (c : UserCtx) : UserCtx :=
  let c1 :=
    match c.last_message.answer with
    | some b =>
      { c with pending_task :=
          c.pending_task.map (fun t => { t with performed := b, comment := c.last_message.text }) }
    | none => c
  reset_message c1

/-- `User._update_task_auth` (user.py:268-279). -/
def update_task_auth (c : UserCtx) : UserCtx :=
  if c.last_auth = .AUTHORIZED then
    let c1 := send_message "good_auth" c
    { c1 with pending_task := c1.pending_task.map (fun t => { t with authenticated := true }) }
  else
    let c1 := send_message "bad_auth" c
    let c2 := { c1 with duo := c1.duo.reset }
    { c2 with pending_task := c2.pending_task.map (fun t => { t with authenticated := false }) }

/-- `User._update_tasks` (user.py:331-345): the suppression sweep — each
queued task whose title is in the ignored map gets the suppression reason as
comment, is marked verifying and dropped from the queue. -/
def update_tasks (c : UserCtx) : UserCtx :=
  let pairs := c.tasks.map (fun t =>
    match c.ignored.lookup t.title with
    | some reason => (Task.set_verifying { t with comment := reason }, false)
    | none => (t, true))
  { c with
    tasks := (pairs.filter (fun p => p.2)).map (fun p => p.1),
    swept := c.swept ++ (pairs.filter (fun p => !p.2)).map (fun p => p.1) }

/-- `User._complete_task` (user.py:310-329). -/
def complete_task (c : UserCtx) : UserCtx :=
  match c.pending_task with
  | none => c
  | some t =>
    let c1 :=
      if t.performed then
        { c with ignoreInserts := c.ignoreInserts ++
            [(c.username, t.title, "auto backoff after confirmation", BACKOFF_TIME)] }
      else c
    let c2 := { c1 with pending_task := none,
                        completed := c1.completed ++ [Task.set_verifying t] }
    let c3 := reset_message c2
    let c4 := update_tasks c3
    if c4.tasks.length ≠ 0 then send_message "bwtm" c4
    else
      let c5 := send_message "bye" c4
      { c5 with cleaned := true }

end User

/-- State `need_task` with its `on_exit` hook (user.py:142-148). -/
def need_task : SMState UserCtx := ⟨"need_task", none, none, some User.next_task⟩

def action_performed_check : SMState UserCtx :=
  ⟨"action_performed_check", none, none, some User.update_task_response⟩

def auth_permission_check : SMState UserCtx :=
  ⟨"auth_permission_check", none, some (User.send_message "2fa"), some User.reset_message⟩

def waiting_on_auth : SMState UserCtx :=
  ⟨"waiting_on_auth", some User.update_auth, some User.begin_auth, some User.update_task_auth⟩

def task_finished : SMState UserCtx :=
  ⟨"task_finished", none, none, some User.complete_task⟩

/-- Transition 1 (user.py:64-69). -/
def trans1 : SMTransition UserCtx := ⟨need_task, action_performed_check, some User.has_tasks, none⟩

/-- Transition 2 (user.py:70-75). -/
def trans2 : SMTransition UserCtx := ⟨action_performed_check, task_finished, some User.already_authed, none⟩

/-- Transition 3 (user.py:76-82). -/
def trans3 : SMTransition UserCtx :=
  ⟨action_performed_check, task_finished, some User.cannot_2fa, some (User.send_message "no_2fa")⟩

/-- Transition 4 (user.py:83-88). -/
def trans4 : SMTransition UserCtx :=
  ⟨action_performed_check, auth_permission_check, some User.performed_action, none⟩

/-- Transition 5 (user.py:89-95). -/
def trans5 : SMTransition UserCtx :=
  ⟨action_performed_check, task_finished, some User.did_not_perform_action,
    some User.act_on_not_performed⟩

/-- Transition 6 (user.py:96-102). -/
def trans6 : SMTransition UserCtx :=
  ⟨action_performed_check, task_finished, some User.slow_response_time, some User.auto_escalate⟩

/-- Transition 7 (user.py:103-108). -/
def trans7 : SMTransition UserCtx :=
  ⟨auth_permission_check, waiting_on_auth, some User.allows_authorization, none⟩

/-- Transition 8 (user.py:109-115). -/
def trans8 : SMTransition UserCtx :=
  ⟨auth_permission_check, task_finished, some User.denies_authorization,
    some (User.send_message "escalated")⟩

/-- Transition 9 (user.py:116-122). -/
def trans9 : SMTransition UserCtx :=
  ⟨auth_permission_check, task_finished, some User.slow_response_time, some User.auto_escalate⟩

/-- Transition 10 (user.py:123-128). -/
def trans10 : SMTransition UserCtx :=
  ⟨waiting_on_auth, task_finished, some User.auth_completed, none⟩

/-- Transition 11 (user.py:129-133), unconditional. -/
def trans11 : SMTransition UserCtx := ⟨task_finished, need_task, none, none⟩

/-- The declaration-order transition list of `User.__init__`. -/
def userTransitions : List (SMTransition UserCtx) :=
  [trans1, trans2, trans3, trans4, trans5, trans6, trans7, trans8, trans9, trans10, trans11]

/-- The session's `StateMachine` positioned at state `s`. -/
def userMachine (s : SMState UserCtx) : StateMachine UserCtx :=
  ⟨userTransitions, s⟩

/-- The state after one `step()` from state `s` in environment `env`. -/
def userStep (s : SMState UserCtx) (env : UserCtx) : SMState UserCtx :=
  ((userMachine s).step env).1.state

lemma firstEnabled_mem {σ : Type} (ts : List (SMTransition σ)) (env : σ) :
    (firstEnabled ts env).1 = none ∨ ∃ t ∈ ts, (firstEnabled ts env).1 = some t := by
  induction ts generalizing env with
  | nil => exact Or.inl rfl
  | cons t ts ih =>
    simp only [firstEnabled]
    by_cases hb : (t.runCondition env).1 = true
    · right
      exact ⟨t, List.mem_cons_self t ts, by simp [hb]⟩
    · have hb' : (t.runCondition env).1 = false := by
        cases h : (t.runCondition env).1
        · rfl
        · exact absurd h hb
      rcases ih (t.runCondition env).2 with h | ⟨t', ht', h⟩
      · left
        simp [hb', h]
      · right
        exact ⟨t', List.mem_cons_of_mem _ ht', by simp [hb', h]⟩

lemma userStep_eq (s : SMState UserCtx) (env : UserCtx) :
    userStep s env =
      match (firstEnabled (StateMachine.transitionsFrom ⟨userTransitions, s⟩ s.name)
              (s.runDuring env)).1 with
      | none => s
      | some t => t.dest := by
  unfold userStep userMachine StateMachine.step
  show ((StateMachine.mk userTransitions s).stepFrom
      (StateMachine.transitionsFrom ⟨userTransitions, s⟩ s.name) (s.runDuring env)).1.state = _
  rw [stepFrom_eq_firstEnabled]
  rcases hfe : firstEnabled (StateMachine.transitionsFrom ⟨userTransitions, s⟩ s.name)
      (s.runDuring env) with ⟨o, envf⟩
  cases o <;> simp [hfe]

lemma userStep_mem (s : SMState UserCtx) (env : UserCtx) :
    userStep s env = s ∨
      ∃ t ∈ StateMachine.transitionsFrom ⟨userTransitions, s⟩ s.name,
        userStep s env = t.dest := by
  rw [userStep_eq]
  rcases firstEnabled_mem (StateMachine.transitionsFrom ⟨userTransitions, s⟩ s.name)
      (s.runDuring env) with h | ⟨t, ht, h⟩
  · rw [h]
    exact Or.inl rfl
  · rw [h]
    exact Or.inr ⟨t, ht, rfl⟩

lemma tf_need_task :
    StateMachine.transitionsFrom ⟨userTransitions, need_task⟩ need_task.name = [trans1] := rfl

lemma tf_apc :
    StateMachine.transitionsFrom ⟨userTransitions, action_performed_check⟩
      action_performed_check.name = [trans2, trans3, trans4, trans5, trans6] := rfl

lemma tf_auth :
    StateMachine.transitionsFrom ⟨userTransitions, auth_permission_check⟩
      auth_permission_check.name = [trans7, trans8, trans9] := rfl

lemma tf_wait :
    StateMachine.transitionsFrom ⟨userTransitions, waiting_on_auth⟩
      waiting_on_auth.name = [trans10] := rfl

lemma tf_fin :
    StateMachine.transitionsFrom ⟨userTransitions, task_finished⟩
      task_finished.name = [trans11] := rfl

lemma userStep_need_task (env : UserCtx) :
    userStep need_task env = need_task ∨
    userStep need_task env = action_performed_check := by
  rcases userStep_mem need_task env with h | ⟨t, ht, h⟩
  · exact Or.inl h
  · rw [tf_need_task] at ht
    rw [List.mem_singleton.mp ht] at h
    exact Or.inr h

lemma userStep_apc (env : UserCtx) :
    userStep action_performed_check env = action_performed_check ∨
    userStep action_performed_check env = task_finished ∨
    userStep action_performed_check env = auth_permission_check := by
  rcases userStep_mem action_performed_check env with h | ⟨t, ht, h⟩
  · exact Or.inl h
  · rw [tf_apc] at ht
    simp only [List.mem_cons, List.not_mem_nil, or_false] at ht
    rcases ht with rfl | rfl | rfl | rfl | rfl
    · exact Or.inr (Or.inl h)
    · exact Or.inr (Or.inl h)
    · exact Or.inr (Or.inr h)
    · exact Or.inr (Or.inl h)
    · exact Or.inr (Or.inl h)

lemma userStep_auth (env : UserCtx) :
    userStep auth_permission_check env = auth_permission_check ∨
    userStep auth_permission_check env = waiting_on_auth ∨
    userStep auth_permission_check env = task_finished := by
  rcases userStep_mem auth_permission_check env with h | ⟨t, ht, h⟩
  · exact Or.inl h
  · rw [tf_auth] at ht
    simp only [List.mem_cons, List.not_mem_nil, or_false] at ht
    rcases ht with rfl | rfl | rfl
    · exact Or.inr (Or.inl h)
    · exact Or.inr (Or.inr h)
    · exact Or.inr (Or.inr h)

lemma userStep_wait (env : UserCtx) :
    userStep waiting_on_auth env = waiting_on_auth ∨
    userStep waiting_on_auth env = task_finished := by
  rcases userStep_mem waiting_on_auth env with h | ⟨t, ht, h⟩
  · exact Or.inl h
  · rw [tf_wait] at ht
    rw [List.mem_singleton.mp ht] at h
    exact Or.inr h

/-- The state trace of a run: start at `s` and take one `step()` per
environment in `envs` (the world may change every field of the environment
between steps — messages arriving, the clock advancing, Duo resolving). -/
def userSeq : SMState UserCtx → List UserCtx → List (SMState UserCtx)
  | s, [] => [s]
  | s, e :: es => s :: userSeq (userStep s e) es

/-- The state-name trace of a run started in `need_task`. -/
def userSeqNames (envs : List UserCtx) : List String :=
  (userSeq need_task envs).map SMState.name

lemma userSeq_cons (s : SMState UserCtx) (l : List UserCtx) :
    ∃ l', userSeq s l = s :: l' := by
  cases l <;> exact ⟨_, rfl⟩

/-- C4.  A run starting in `need_task` in which every step changes state
(no stalled steps) and whose trace first reaches `task_finished` at its end
takes at least 1 and at most 4 steps, and takes 4 steps only along the full
path `need_task → action_performed_check → auth_permission_check →
waiting_on_auth → task_finished`. -/
theorem session_steps_to_finish_bounds (envs : List UserCtx)
    (hprog : List.Chain' (fun a b => a ≠ b) (userSeqNames envs))
    (hlast : (userSeqNames envs).getLast? = some "task_finished")
    (hbefore : "task_finished" ∉ (userSeqNames envs).dropLast) :
    1 ≤ envs.length ∧ envs.length ≤ 4 ∧
      (envs.length = 4 → userSeqNames envs =
        ["need_task", "action_performed_check", "auth_permission_check",
         "waiting_on_auth", "task_finished"]) := by
  match envs with
  | [] =>
    exact absurd hlast (by decide)
  | [e1] =>
    exfalso
    simp only [userSeqNames, userSeq, List.map] at hlast
    rcases userStep_need_task e1 with h1 | h1 <;> rw [h1] at hlast <;>
      exact absurd hlast (by decide)
  | [e1, e2] =>
    refine ⟨by show (1 : Nat) ≤ 2; decide, by show (2 : Nat) ≤ 4; decide, fun h => ?_⟩
    have h2 : (2 : Nat) = 4 := h
    omega
  | [e1, e2, e3] =>
    refine ⟨by show (1 : Nat) ≤ 3; decide, by show (3 : Nat) ≤ 4; decide, fun h => ?_⟩
    have h2 : (3 : Nat) = 4 := h
    omega
  | [e1, e2, e3, e4] =>
    refine ⟨by show (1 : Nat) ≤ 4; decide, by show (4 : Nat) ≤ 4; decide, fun _ => ?_⟩
    simp only [userSeqNames, userSeq, List.map] at hprog hbefore ⊢
    simp only [List.chain'_cons, List.chain'_singleton, and_true] at hprog
    obtain ⟨hp1, hp2, hp3, hp4⟩ := hprog
    simp only [List.dropLast_cons₂, List.dropLast_single, List.mem_cons,
      List.not_mem_nil, or_false, not_or] at hbefore
    obtain ⟨hb0, hb1, hb2, hb3⟩ := hbefore
    rcases userStep_need_task e1 with h1 | h1
    · exact absurd (by rw [h1]) hp1
    · rw [h1] at hp1 hp2 hp3 hp4 hb1 hb2 hb3 ⊢
      rcases userStep_apc e2 with h2 | h2 | h2
      · exact absurd (by rw [h2]) hp2
      · exact absurd (by rw [h2]; rfl) hb2
      · rw [h2] at hp2 hp3 hp4 hb2 hb3 ⊢
        rcases userStep_auth e3 with h3 | h3 | h3
        · exact absurd (by rw [h3]) hp3
        · rw [h3] at hp3 hp4 hb3 ⊢
          rcases userStep_wait e4 with h4 | h4
          · exact absurd (by rw [h4]) hp4
          · rw [h4]
            rfl
        · exact absurd (by rw [h3]; rfl) hb3
  | e1 :: e2 :: e3 :: e4 :: e5 :: rest =>
    exfalso
    simp only [userSeqNames, userSeq, List.map] at hprog hbefore
    simp only [List.chain'_cons] at hprog
    obtain ⟨hp1, hp2, hp3, hp4, -⟩ := hprog
    simp only [List.dropLast_cons₂, List.mem_cons, not_or] at hbefore
    obtain ⟨hb0, hb1, hb2, hb3, hbrest⟩ := hbefore
    rcases userStep_need_task e1 with h1 | h1
    · exact absurd (by rw [h1]) hp1
    · rw [h1] at hp1 hp2 hp3 hp4 hb1 hb2 hb3 hbrest
      rcases userStep_apc e2 with h2 | h2 | h2
      · exact absurd (by rw [h2]) hp2
      · exact absurd (by rw [h2]; rfl) hb2
      · rw [h2] at hp2 hp3 hp4 hb2 hb3 hbrest
        rcases userStep_auth e3 with h3 | h3 | h3
        · exact absurd (by rw [h3]) hp3
        · rw [h3] at hp3 hp4 hb3 hbrest
          rcases userStep_wait e4 with h4 | h4
          · exact absurd (by rw [h4]) hp4
          · apply hbrest
            rw [h4]
            obtain ⟨l', hl'⟩ := userSeq_cons (userStep task_finished e5) rest
            rw [hl']
            simp [List.dropLast_cons₂, task_finished]
        · exact absurd (by rw [h3]; rfl) hb3

/-- Concrete task used by the executable witnesses. -/
def sampleTask : Task :=
  ⟨"ssh_root", "alice", "reason", "ssh as root", "url", false, "", false, .OPEN⟩

/-- Environment of the first witness step: one queued task, no answer yet. -/
def ctxA : UserCtx :=
  { tasks := [sampleTask], pending_task := none, last_message := ⟨none, ""⟩,
    last_auth := .NONE, escalation_time := datetimeMax, duo := DuoAuth.init,
    username := "alice", now := 0, poll := ⟨true, false⟩, can_auth := true,
    ignored := [], reporting := false, sent := [], alerts := [], reports := [],
    ignoreInserts := [], swept := [], completed := [], cleaned := false }

/-- Environment of the second witness step: a pending task and a negative
answer, driving `action_performed_check → task_finished`. -/
def ctxB : UserCtx :=
  { ctxA with tasks := [], pending_task := some sampleTask,
              last_message := ⟨some false, "I did not"⟩ }

/-- Witness for C4: the two-step run `need_task → action_performed_check →
task_finished` (a queued task, then a negative answer) satisfies every
hypothesis and the bounds. -/
theorem session_steps_to_finish_bounds_witness :
    1 ≤ ([ctxA, ctxB] : List UserCtx).length ∧
    ([ctxA, ctxB] : List UserCtx).length ≤ 4 ∧
      (([ctxA, ctxB] : List UserCtx).length = 4 → userSeqNames [ctxA, ctxB] =
        ["need_task", "action_performed_check", "auth_permission_check",
         "waiting_on_auth", "task_finished"]) :=
  session_steps_to_finish_bounds [ctxA, ctxB]
    (by
      have he : userSeqNames [ctxA, ctxB] =
          ["need_task", "action_performed_check", "task_finished"] := by decide
      rw [he]
      exact List.chain'_cons.mpr ⟨by decide,
        List.chain'_cons.mpr ⟨by decide, List.chain'_singleton _⟩⟩)
    (by decide) (by decide)

/-- C8.  `on_exit(action_performed_check)` (`User._update_task_response`)
writes `pending_task.performed := last_message.answer` and
`pending_task.comment := last_message.text` exactly when the answer is
non-null, leaves both fields unchanged when the answer is unset, and in
either case resets `last_message` to the unset value. -/
theorem update_task_response_spec (c : UserCtx) (t : Task)
    (h : c.pending_task = some t) :
    ((∀ b, c.last_message.answer = some b →
        (User.update_task_response c).pending_task =
          some { t with performed := b, comment := c.last_message.text })
     ∧ (c.last_message.answer = none →
        (User.update_task_response c).pending_task = some t)
     ∧ (User.update_task_response c).last_message = tuple_builder none none) := by
  refine ⟨?_, ?_, ?_⟩
  · intro b hb
    simp [User.update_task_response, User.reset_message, hb, h]
  · intro hb
    simp [User.update_task_response, User.reset_message, hb, h]
  · cases hb : c.last_message.answer <;>
      simp [User.update_task_response, User.reset_message, hb]

/-- Witness for C8: in `ctxB` (pending task, answer `no "I did not"`) the
exit hook commits `performed := false`, `comment := "I did not"` and resets
the message; with the answer unset the task is untouched. -/
theorem update_task_response_spec_witness :
    (User.update_task_response ctxB).pending_task =
      some { sampleTask with performed := false, comment := "I did not" } ∧
    (User.update_task_response { ctxB with last_message := ⟨none, ""⟩ }).pending_task =
      some sampleTask ∧
    (User.update_task_response ctxB).last_message = tuple_builder none none := by
  refine ⟨?_, ?_, ?_⟩
  · exact (update_task_response_spec ctxB sampleTask rfl).1 false rfl
  · exact (update_task_response_spec { ctxB with last_message := ⟨none, ""⟩ }
      sampleTask rfl).2.1 rfl
  · exact (update_task_response_spec ctxB sampleTask rfl).2.2

/-! ## Coordinator message handling (securitybot/bot.py)

`clean_command` lowercases the first token and strips the punctuation set
`.,!?'"` and backquote; Python 2 `str.lower()` on the command bytes is the
ASCII case mapping, modelled by the `ASCII_LOWER` table.  `is_command`
indexes `command.split()[0]`, which raises `IndexError` on a text whose
whitespace split is empty; `handle_messages` calls it unguarded for every
drained message. -/

inductive PyError where
  | indexError
  | attributeError (attr : String)
  | botError (msg : String)
  deriving DecidableEq, Repr

/-- The ASCII uppercase-to-lowercase mapping used by `str.lower()`. -/
def ASCII_LOWER : List (Char × Char) :=
  [('A', 'a'), ('B', 'b'), ('C', 'c'), ('D', 'd'), ('E', 'e'), ('F', 'f'),
   ('G', 'g'), ('H', 'h'), ('I', 'i'), ('J', 'j'), ('K', 'k'), ('L', 'l'),
   ('M', 'm'), ('N', 'n'), ('O', 'o'), ('P', 'p'), ('Q', 'q'), ('R', 'r'),
   ('S', 's'), ('T', 't'), ('U', 'u'), ('V', 'v'), ('W', 'w'), ('X', 'x'),
   ('Y', 'y'), ('Z', 'z')]

def pyLower (c : Char) : Char := (ASCII_LOWER.lookup c).getD c

/-- The `PUNCTUATION` constant of bot.py:54: full stop, comma, exclamation
and question marks, apostrophe (39), double quote (34) and backquote (96). -/
def PUNCTUATION : List Char :=
  ['.', ',', '!', '?', Char.ofNat 39, Char.ofNat 34, Char.ofNat 96]

/-- `clean_command(command)` (bot.py:56-64): `command.lower()` then
`translate` deleting `PUNCTUATION` (the utf-8 encode is the identity on the
modelled text). -/
def clean_command (command : String) : String :=
  ⟨(command.data.map pyLower).filter (fun c => c ∉ PUNCTUATION)⟩

lemma lookup_mem {α β : Type} [BEq α] [LawfulBEq α] (ps : List (α × β)) (k : α) (v : β)
    (h : ps.lookup k = some v) : (k, v) ∈ ps := by
  induction ps with
  | nil => simp [List.lookup] at h
  | cons p ps ih =>
    obtain ⟨a, b⟩ := p
    rw [List.lookup] at h
    cases hk : k == a with
    | true =>
      simp only [hk] at h
      injection h with hbv
      subst hbv
      rw [eq_of_beq hk]
      exact List.mem_cons_self _ _
    | false =>
      simp only [hk] at h
      exact List.mem_cons_of_mem _ (ih h)

lemma lookup_eq_none_pyLower_fix (c : Char) (h : ASCII_LOWER.lookup c = none) :
    pyLower c = c := by
  unfold pyLower
  rw [h]
  rfl

lemma clean_command_chars (s : String) :
    ∀ c ∈ (clean_command s).data,
      ASCII_LOWER.lookup c = none ∧ c ∉ PUNCTUATION := by
  intro c hc
  unfold clean_command at hc
  simp only [List.mem_filter, List.mem_map, decide_eq_true_eq] at hc
  obtain ⟨⟨d, _, hd⟩, hp⟩ := hc
  refine ⟨?_, hp⟩
  subst hd
  unfold pyLower
  cases hl : ASCII_LOWER.lookup d with
  | none =>
    simp only [Option.getD_none]
    exact hl
  | some l =>
    have hm : (d, l) ∈ ASCII_LOWER := lookup_mem _ _ _ hl
    have hval : ∀ p ∈ ASCII_LOWER, ASCII_LOWER.lookup p.2 = none := by decide
    simpa using hval (d, l) hm

lemma clean_fix (l : List Char)
    (h : ∀ c ∈ l, pyLower c = c ∧ c ∉ PUNCTUATION) :
    (l.map pyLower).filter (fun c => c ∉ PUNCTUATION) = l := by
  induction l with
  | nil => rfl
  | cons c l ih =>
    obtain ⟨hc1, hc2⟩ := h c (List.mem_cons_self _ _)
    simp only [List.map_cons, hc1, List.filter_cons]
    have hdec : (decide (c ∉ PUNCTUATION)) = true := by simp [hc2]
    rw [hdec]
    simp only [if_true]
    rw [ih (fun d hd => h d (List.mem_cons_of_mem _ hd))]

/-- C10.  `clean_command` is idempotent, and every command key it produces is
lowercase (contains no ASCII uppercase letter, i.e. no key of the lowercasing
table) and contains none of the punctuation characters `.` `,` `!` `?`
apostrophe, double quote, backquote. -/
theorem clean_command_idempotent (s : String) :
    clean_command (clean_command s) = clean_command s ∧
    ∀ c ∈ (clean_command s).data,
      ASCII_LOWER.lookup c = none ∧ c ∉ PUNCTUATION := by
  refine ⟨?_, clean_command_chars s⟩
  have hchars := clean_command_chars s
  have hfix : ((clean_command s).data.map pyLower).filter (fun c => c ∉ PUNCTUATION) =
      (clean_command s).data :=
    clean_fix _ (fun c hc =>
      ⟨lookup_eq_none_pyLower_fix c (hchars c hc).1, (hchars c hc).2⟩)
  show String.mk (((clean_command s).data.map pyLower).filter (fun c => c ∉ PUNCTUATION)) =
    clean_command s
  rw [hfix]

/-- Witness for C10 at the input `"Yes!?"`: double cleaning is stable and the
produced key `"yes"` has only lowercase, punctuation-free characters. -/
theorem clean_command_idempotent_witness :
    clean_command (clean_command "Yes!?") = clean_command "Yes!?" ∧
    (ASCII_LOWER.lookup 'y' = none ∧ 'y' ∉ PUNCTUATION) := by
  refine ⟨(clean_command_idempotent "Yes!?").1, ?_⟩
  exact (clean_command_idempotent "Yes!?").2 'y' (by decide)

/-- Helper for `pySplit`: scan the characters, accumulating the current
token (reversed). -/
def pySplitAux : List Char → List Char → List String
  | [], acc => if acc = [] then [] else [String.mk acc.reverse]
  | c :: cs, acc =>
    if c.isWhitespace then
      if acc = [] then pySplitAux cs []
      else String.mk acc.reverse :: pySplitAux cs []
    else pySplitAux cs (c :: acc)

/-- Python `str.split()` with no argument: split on whitespace runs,
discarding empty pieces. -/
def pySplit (s : String) : List String := pySplitAux s.data []

/-- `SecurityBot.is_command` (bot.py:392-395):
`clean_command(command.split()[0]) in self.commands`.  Indexing `[0]` of an
empty split raises `IndexError`, modelled as the error branch; `commands` is
the set of loaded command names. -/
def is_command (commands : List String) (text : String) : Except PyError Bool :=
  match pySplit text with
  | [] => .error .indexError
  | w :: _ => .ok (decide (clean_command w ∈ commands))

structure Message where
  user : String
  text : String
  deriving DecidableEq, Repr

/-- `SecurityBot.handle_messages` (bot.py:184-201) over the drained message
list: look each sender up (`user_lookup` raises on an unknown id), then test
`is_command` unguarded; a raised exception aborts the pass, leaving the
remaining messages unprocessed.  Returns the per-message dispatch effects
performed before the abort, and the exception if one was raised. -/
def handle_messages (users : List String) (commands : List String) :
    List Message → List (String × String) × Option PyError
  | [] => ([], none)
  | m :: rest =>
    if m.user ∉ users then ([], some (.botError "User not found"))
    else
      match is_command commands m.text with
      | .error e => ([], some e)
      | .ok b =>
        let eff := if b then (m.user, "handle_command") else (m.user, "bad_command")
        let r := handle_messages users commands rest
        (eff :: r.1, r.2)

/-- C9.  `is_command` returns a Boolean exactly for texts whose whitespace
split is non-empty; an empty or whitespace-only text makes it raise
`IndexError`, and since `handle_messages` applies it unguarded to every
incoming message, such a message aborts the message-handling pass: the
messages before it are dispatched, it and everything after it are not. -/
theorem empty_message_aborts (users commands : List String)
    (pre : List Message) (m : Message) (rest : List Message)
    (hpre : ∀ p ∈ pre, p.user ∈ users ∧ pySplit p.text ≠ [])
    (hm : m.user ∈ users) (hsplit : pySplit m.text = []) :
    is_command commands m.text = .error .indexError ∧
    (∀ text, pySplit text ≠ [] → ∃ b, is_command commands text = .ok b) ∧
    (handle_messages users commands (pre ++ m :: rest)).2 = some .indexError ∧
    (handle_messages users commands (pre ++ m :: rest)).1.length = pre.length := by
  have hcmd : is_command commands m.text = .error .indexError := by
    unfold is_command
    rw [hsplit]
  refine ⟨hcmd, ?_, ?_⟩
  · intro text ht
    unfold is_command
    cases hs : pySplit text with
    | nil => exact absurd hs ht
    | cons w ws => exact ⟨_, rfl⟩
  · induction pre with
    | nil =>
      simp only [List.nil_append, handle_messages, List.length_nil]
      rw [if_neg (by simpa using hm), hcmd]
      exact ⟨rfl, rfl⟩
    | cons p pre ih =>
      obtain ⟨hp1, hp2⟩ := hpre p (List.mem_cons_self _ _)
      have ih' := ih (fun q hq => hpre q (List.mem_cons_of_mem _ hq))
      simp only [List.cons_append, handle_messages]
      rw [if_neg (by simpa using hp1)]
      cases hc : is_command commands p.text with
      | error e =>
        exfalso
        unfold is_command at hc
        cases hs : pySplit p.text with
        | nil => exact hp2 hs
        | cons w ws =>
          rw [hs] at hc
          exact Except.noConfusion hc
      | ok b =>
        simp only [List.length_cons]
        exact ⟨ih'.1, congrArg (fun n => n + 1) ih'.2⟩

/-- Witness for C9: with roster `["U1"]` and commands `["yes"]`, the
whitespace-only second message aborts the pass after the first message's
dispatch. -/
theorem empty_message_aborts_witness :
    is_command ["yes"] "   " = .error .indexError ∧
    (∀ text, pySplit text ≠ [] → ∃ b, is_command ["yes"] text = .ok b) ∧
    (handle_messages ["U1"] ["yes"]
      [⟨"U1", "yes I did"⟩, ⟨"U1", "   "⟩, ⟨"U1", "no"⟩]).2 = some .indexError ∧
    (handle_messages ["U1"] ["yes"]
      [⟨"U1", "yes I did"⟩, ⟨"U1", "   "⟩, ⟨"U1", "no"⟩]).1.length =
      ([⟨"U1", "yes I did"⟩] : List Message).length :=
  empty_message_aborts ["U1"] ["yes"] [⟨"U1", "yes I did"⟩] ⟨"U1", "   "⟩
    [⟨"U1", "no"⟩] (by decide) (by decide) (by decide)

/-! ## Coordinator task admission (securitybot/bot.py `_add_task`)

The bot state needed by `_add_task`: the chat roster (`users_by_name`, as
(id, name) pairs), the blacklist, the active-user set, each active user's
session queue, and the suppression snapshot `get_ignored(username)` supplied
by the database.  Chat sends are an effect log.  In Python the admitted task
object is aliased between the session queue and `set_in_progress`; the model
returns the task's final state alongside the bot state, and the queue keeps
the object as it was when appended (its persisted status lives in the
returned task). -/

structure BotCtx where
  roster : List (String × String)
  blacklist : List String
  active_users : List String
  sessions : List (String × List Task)
  ignoredOf : String → List (String × String)
  sent : List (String × String)

/-- `SecurityBot.user_lookup_by_name` (bot.py:365-377), as an `Option`
(`SecurityBotException` on a miss). -/
def user_lookup_by_name (ctx : BotCtx) (username : String) : Option (String × String) :=
  ctx.roster.find? (fun p => p.2 == username)

/-- `SecurityBot.valid_user` (bot.py:218-230): one whitespace token that
resolves in the roster. -/
def valid_user (ctx : BotCtx) (username : String) : Bool :=
  if (pySplit username).length ≠ 1 then false
  else (user_lookup_by_name ctx username).isSome

/-- One task through the `_update_tasks` sweep (user.py:331-345): suppressed
tasks get the suppression reason as comment, are marked verifying and
flagged for removal. -/
def sweepOne (ignored : List (String × String)) (t : Task) : Task × Bool :=
  match ignored.lookup t.title with
  | some reason => (Task.set_verifying { t with comment := reason }, false)
  | none => (t, true)

/-- The queue after the `_update_tasks` sweep. -/
def sweepQueue (ignored : List (String × String)) (tasks : List Task) : List Task :=
  ((tasks.map (sweepOne ignored)).filter (fun p => p.2)).map (fun p => p.1)

/-- Replace (upsert) a user's session queue. -/
def setSession (l : List (String × List Task)) (k : String) (v : List Task) :
    List (String × List Task) :=
  (k, v) :: l.filter (fun p => ¬(p.1 = k))

/-- `SecurityBot._add_task(task)` (bot.py:232-260): roster validation first;
then the blacklist short-circuit; otherwise create-or-reuse the session
(greeting a newly active user), `user.add_task(task)` (append + suppression
sweep) and `task.set_in_progress()`. -/
def SecurityBot.add_task (ctx : BotCtx) (task : Task) : BotCtx × Task :=
  let username := task.username
  if valid_user ctx username then
    if username ∈ ctx.blacklist then
      (ctx, Task.set_verifying { task with comment := "blacklisted" })
    else
      let user := (user_lookup_by_name ctx username).getD ("", "")
      let user_id := user.1
      let ctx1 :=
        if user_id ∉ ctx.active_users then
          { ctx with active_users := ctx.active_users ++ [user_id],
                     sent := ctx.sent ++ [(user_id, "greeting")] }
        else ctx
      let queue := (ctx1.sessions.lookup user_id).getD []
      let ign := ctx1.ignoredOf username
      let ctx2 := { ctx1 with
        sessions := setSession ctx1.sessions user_id (sweepQueue ign (queue ++ [task])) }
      (ctx2, Task.set_in_progress (sweepOne ign task).1)
  else
    (ctx, Task.set_verifying { task with comment := "invalid user" })

lemma sweepQueue_append (ign : List (String × String)) (l1 l2 : List Task) :
    sweepQueue ign (l1 ++ l2) = sweepQueue ign l1 ++ sweepQueue ign l2 := by
  simp [sweepQueue, List.map_append, List.filter_append]

/-- C6 (amended).  A task whose username resolves in the roster *and* is
blacklisted leaves the bot state (sessions, active users, chat) untouched and
becomes AWAITING_VERIFICATION with comment `"blacklisted"`; a task whose
username fails roster validation — even a blacklisted one — likewise becomes
AWAITING_VERIFICATION with comment `"invalid user"`; every other task has
`set_in_progress` called on it (persisted status IN_PROGRESS) and is appended
to its user's session queue, where it remains if the suppression sweep does
not remove it. -/
theorem add_task_spec (ctx : BotCtx) (task : Task) :
    (valid_user ctx task.username = true → task.username ∈ ctx.blacklist →
      (SecurityBot.add_task ctx task).1 = ctx ∧
      (SecurityBot.add_task ctx task).2 =
        Task.set_verifying { task with comment := "blacklisted" })
    ∧ (valid_user ctx task.username = false →
      (SecurityBot.add_task ctx task).1 = ctx ∧
      (SecurityBot.add_task ctx task).2 =
        Task.set_verifying { task with comment := "invalid user" })
    ∧ (valid_user ctx task.username = true → task.username ∉ ctx.blacklist →
      ((ctx.ignoredOf task.username).lookup task.title = none →
        (SecurityBot.add_task ctx task).2 = Task.set_in_progress task ∧
        task ∈ ((SecurityBot.add_task ctx task).1.sessions.lookup
          ((user_lookup_by_name ctx task.username).getD ("", "")).1).getD []) ∧
      (SecurityBot.add_task ctx task).2.status = .INPROGRESS) := by
  refine ⟨?_, ?_, ?_⟩
  · intro hv hb
    simp [SecurityBot.add_task, hv, hb]
  · intro hv
    simp [SecurityBot.add_task, hv]
  · intro hv hb
    by_cases hact :
        ((user_lookup_by_name ctx task.username).getD ("", "")).1 ∈ ctx.active_users
    · refine ⟨?_, ?_⟩
      · intro hi
        have hsw : sweepOne (ctx.ignoredOf task.username) task = (task, true) := by
          simp [sweepOne, hi]
        refine ⟨?_, ?_⟩
        · simp [SecurityBot.add_task, hv, hb, hact, hsw]
        · simp only [SecurityBot.add_task, hv, if_true, hb, hact, not_true,
            if_false, setSession]
          simp only [List.lookup, beq_self_eq_true, Option.getD_some,
            sweepQueue_append]
          refine List.mem_append_right _ ?_
          simp [sweepQueue, hsw]
      · cases hsw : sweepOne (ctx.ignoredOf task.username) task with
        | mk t' kept =>
          have ht' : (SecurityBot.add_task ctx task).2 = Task.set_in_progress t' := by
            simp [SecurityBot.add_task, hv, hb, hact, hsw]
          rw [ht']
          rfl
    · refine ⟨?_, ?_⟩
      · intro hi
        have hsw : sweepOne (ctx.ignoredOf task.username) task = (task, true) := by
          simp [sweepOne, hi]
        refine ⟨?_, ?_⟩
        · simp [SecurityBot.add_task, hv, hb, hact, hsw]
        · simp only [SecurityBot.add_task, hv, if_true, hb, hact, not_false_iff,
            if_false, setSession]
          simp only [List.lookup, beq_self_eq_true, Option.getD_some,
            sweepQueue_append]
          refine List.mem_append_right _ ?_
          simp [sweepQueue, hsw]
      · cases hsw : sweepOne (ctx.ignoredOf task.username) task with
        | mk t' kept =>
          have ht' : (SecurityBot.add_task ctx task).2 = Task.set_in_progress t' := by
            simp [SecurityBot.add_task, hv, hb, hact, hsw]
          rw [ht']
          rfl

/-- C6 counterexample.  A username that is on the blacklist but absent from
the chat roster fails `valid_user` first, so the task's comment becomes
`"invalid user"`, not `"blacklisted"` as the claim requires for every
blacklisted username. -/
def ctxGhost : BotCtx :=
  { roster := [("U1", "alice")], blacklist := ["ghost"], active_users := [],
    sessions := [], ignoredOf := fun _ => [], sent := [] }

def ghostTask : Task :=
  ⟨"ssh_root", "ghost", "reason", "ssh as root", "url", false, "", false, .OPEN⟩

theorem blacklisted_without_roster_gets_invalid_user :
    ghostTask.username ∈ ctxGhost.blacklist ∧
    (SecurityBot.add_task ctxGhost ghostTask).2.comment = "invalid user" ∧
    (SecurityBot.add_task ctxGhost ghostTask).2.comment ≠ "blacklisted" ∧
    (SecurityBot.add_task ctxGhost ghostTask).2.status = .VERIFICATION := by
  refine ⟨by decide, by decide, by decide, by decide⟩

/-- Witness for C6: all three branches at concrete inputs — `alice` is on the
roster; blacklisted `alice` gets `"blacklisted"`; non-roster `ghost` gets
`"invalid user"`; non-blacklisted `alice` goes IN_PROGRESS into her queue. -/
def ctxAlice : BotCtx :=
  { roster := [("U1", "alice")], blacklist := ["ghost"], active_users := [],
    sessions := [], ignoredOf := fun _ => [], sent := [] }

def ctxAliceBlack : BotCtx := { ctxAlice with blacklist := ["alice"] }

theorem add_task_spec_witness :
    ((SecurityBot.add_task ctxAliceBlack sampleTask).1 = ctxAliceBlack ∧
      (SecurityBot.add_task ctxAliceBlack sampleTask).2 =
        Task.set_verifying { sampleTask with comment := "blacklisted" }) ∧
    ((SecurityBot.add_task ctxAlice ghostTask).2 =
        Task.set_verifying { ghostTask with comment := "invalid user" }) ∧
    ((SecurityBot.add_task ctxAlice sampleTask).2 = Task.set_in_progress sampleTask ∧
      (SecurityBot.add_task ctxAlice sampleTask).2.status = .INPROGRESS) := by
  refine ⟨⟨?_, ?_⟩, ?_, ?_, ?_⟩
  · exact ((add_task_spec ctxAliceBlack sampleTask).1 (by decide) (by decide)).1
  · exact ((add_task_spec ctxAliceBlack sampleTask).1 (by decide) (by decide)).2
  · exact ((add_task_spec ctxAlice ghostTask).2.1 (by decide)).2
  · exact (((add_task_spec ctxAlice sampleTask).2.2 (by decide) (by decide)).1 rfl).1
  · exact ((add_task_spec ctxAlice sampleTask).2.2 (by decide) (by decide)).2

/-! ## The `ignore` command (securitybot/commands.py)

`ignore (last|current) <duration>`: the `last` target reads
`user.old_tasks`, but class `User` (user.py:30-54) defines no `old_tasks`
attribute, so that access raises `AttributeError` (Python's `and`
short-circuit evaluates it only when the first argument is `"last"`).
`TIME_REGEX = (?i)([0-9]+h)?([0-9]+m)?` always matches (both groups are
optional), so the `if not (match or match.group(0))` guard never fires and an
unparsable duration simply yields zero.  Durations are minutes;
`TIME_LIMIT = timedelta(hours=4)` is 240, `OUTATIME = timedelta()` is 0. -/

structure CmdUser where
  name : String
  pending_task : Option Task
  deriving DecidableEq, Repr

/-- One optional regex group `([0-9]+X)?` (case-insensitive) at the head of
the input: a non-empty digit run followed by the letter, or no match. -/
def matchNumGroup (letter : Char) (cs : List Char) : Option Nat × List Char :=
  let p := cs.span (fun c => c.isDigit)
  match p.2 with
  | c :: rest =>
    if p.1 ≠ [] ∧ pyLower c = letter then
      (some (p.1.foldl (fun a d => a * 10 + (d.toNat - 48)) 0), rest)
    else (none, cs)
  | [] => (none, cs)

/-- The duration in minutes parsed by `TIME_REGEX.match(time)`:
`timedelta(hours=group(1), minutes=group(2))`, each group defaulting to 0. -/
def ignore_parse (time : String) : Nat :=
  let g1 := matchNumGroup 'h' time.data
  let g2 := matchNumGroup 'm' g1.2
  (g1.1.getD 0) * 60 + g2.1.getD 0

def TIME_LIMIT : Nat := 240

structure IgnoreResult where
  ret : Bool
  sent : List String
  inserts : List (String × String × String × Nat)
  deriving DecidableEq, Repr

/-- `commands.ignore(bot, user, args)` (commands.py:60-93).  Returns the
Boolean command result together with the chat messages sent and the
`ignored_alerts.ignore_task` upserts performed, or the Python exception. -/
def ignoreCmd (user : CmdUser) (args : List String) : Except PyError IgnoreResult :=
  if args.length ≠ 2 then .ok ⟨false, [], []⟩
  else
    match args with
    | [which, time] =>
      if which = "last" then .error (.attributeError "old_tasks")
      else
        let task? := if which = "current" then user.pending_task else none
        match task? with
        | none => .ok ⟨false, [], []⟩
        | some task =>
          let ignoretime := ignore_parse time
          if TIME_LIMIT < ignoretime then
            .ok ⟨true, ["ignore_time"], [(user.name, task.title, "ignored", TIME_LIMIT)]⟩
          else if ignoretime = 0 then
            .ok ⟨false, ["ignore_no_time"], []⟩
          else
            .ok ⟨true, [], [(user.name, task.title, "ignored", ignoretime)]⟩
    | _ => .ok ⟨false, [], []⟩

lemma ignoreCmd_current (u : CmdUser) (time : String) :
    ignoreCmd u ["current", time] =
      match u.pending_task with
      | none => .ok ⟨false, [], []⟩
      | some task =>
        if TIME_LIMIT < ignore_parse time then
          .ok ⟨true, ["ignore_time"], [(u.name, task.title, "ignored", TIME_LIMIT)]⟩
        else if ignore_parse time = 0 then
          .ok ⟨false, ["ignore_no_time"], []⟩
        else .ok ⟨true, [], [(u.name, task.title, "ignored", ignore_parse time)]⟩ := rfl

/-- C7 counterexample.  `ignore last 2h` raises `AttributeError` because
`User` defines no `old_tasks` attribute, instead of selecting
`old_tasks[-1]` as the claim states. -/
theorem ignore_last_raises :
    ignoreCmd ⟨"alice", some sampleTask⟩ ["last", "2h"] =
      .error (.attributeError "old_tasks") := rfl

/-- C7 (amended).  `ignore last <duration>` raises `AttributeError`
(`User` has no `old_tasks`); `ignore current <duration>` with a pending task
parses the duration by the case-insensitive pattern `([0-9]+h)?([0-9]+m)?`,
caps durations over `TIME_LIMIT = 4h` to 4 hours (sending `ignore_time`),
rejects a zero duration (failure, `ignore_no_time` sent, nothing recorded),
and otherwise records `ignore(user, task.title, "ignored", duration)` and
returns success. -/
theorem ignore_command_spec (u : CmdUser) (t : Task) (time : String)
    (hp : u.pending_task = some t) :
    ignoreCmd u ["last", time] = .error (.attributeError "old_tasks")
    ∧ (TIME_LIMIT < ignore_parse time →
        ignoreCmd u ["current", time] =
          .ok ⟨true, ["ignore_time"], [(u.name, t.title, "ignored", TIME_LIMIT)]⟩)
    ∧ (ignore_parse time = 0 →
        ignoreCmd u ["current", time] = .ok ⟨false, ["ignore_no_time"], []⟩)
    ∧ (0 < ignore_parse time → ignore_parse time ≤ TIME_LIMIT →
        ignoreCmd u ["current", time] =
          .ok ⟨true, [], [(u.name, t.title, "ignored", ignore_parse time)]⟩) := by
  refine ⟨rfl, ?_, ?_, ?_⟩
  · intro h
    simp only [ignoreCmd_current, hp]
    rw [if_pos h]
  · intro h
    simp only [ignoreCmd_current, hp]
    rw [if_neg (by omega), if_pos h]
  · intro h1 h2
    simp only [ignoreCmd_current, hp]
    rw [if_neg (by omega), if_neg (by omega)]

/-- Witness for C7: `99h` is capped to 4 hours, `0m` is rejected, and
`2h30M` (case-insensitive) records 150 minutes. -/
theorem ignore_command_spec_witness :
    ignoreCmd ⟨"alice", some sampleTask⟩ ["last", "2h"] =
      .error (.attributeError "old_tasks")
    ∧ ignoreCmd ⟨"alice", some sampleTask⟩ ["current", "99h"] =
        .ok ⟨true, ["ignore_time"], [("alice", "ssh_root", "ignored", 240)]⟩
    ∧ ignoreCmd ⟨"alice", some sampleTask⟩ ["current", "0m"] =
        .ok ⟨false, ["ignore_no_time"], []⟩
    ∧ ignoreCmd ⟨"alice", some sampleTask⟩ ["current", "2h30M"] =
        .ok ⟨true, [], [("alice", "ssh_root", "ignored", 150)]⟩ := by
  refine ⟨(ignore_command_spec ⟨"alice", some sampleTask⟩ sampleTask "2h" rfl).1,
    ?_, ?_, ?_⟩
  · exact (ignore_command_spec ⟨"alice", some sampleTask⟩ sampleTask "99h" rfl).2.1
      (by decide)
  · exact (ignore_command_spec ⟨"alice", some sampleTask⟩ sampleTask "0m" rfl).2.2.1
      (by decide)
  · exact (ignore_command_spec ⟨"alice", some sampleTask⟩ sampleTask "2h30M" rfl).2.2.2
      (by decide) (by decide)

end Securitybot